import Mathlib

/-!
Verification of the-gold-traders-edge core components against its
specification.  The program's numeric values (Python floats) are modelled
as exact rationals (ℚ); positions in a candle window are natural-number
indices, and timestamps/wall-clock times are rationals measured in hours.

Sources embedded here:
  packages/engine/src/backtesting/engine.py   (BacktestEngine, Trade, Signal)
  packages/engine/src/analysis/technical.py   (TechnicalAnalysis)
  packages/engine/src/signals/gold_strategy.py (GoldStrategy.evaluate)
  packages/engine/src/signals/realtime_generator.py (SignalValidator,
    RealtimeSignalGenerator defaults)
  packages/engine/src/signals/signal_deduplicator.py (SignalDeduplicator)
-/

set_option maxHeartbeats 1000000

namespace GoldTraders

/-- engine.py `TradeDirection`. -/
inductive TradeDirection
  | long
  | short
deriving DecidableEq, Repr

/-- engine.py `TradeStatus`. -/
inductive TradeStatus
  | opened
  | closed_tp
  | closed_sl
  | closed_manual
deriving DecidableEq, Repr

/-- engine.py `Trade` dataclass.  Timestamps and prices are rationals. -/
structure Trade where
  id : ℕ
  entry_time : ℚ
  entry_price : ℚ
  direction : TradeDirection
  stop_loss : ℚ
  take_profit : Option ℚ
  position_size : ℚ := 1
  exit_time : Option ℚ := none
  exit_price : Option ℚ := none
  status : TradeStatus := .opened
  pnl : ℚ := 0
  pnl_pips : ℚ := 0
  signal_name : String := ""
deriving DecidableEq, Repr

/-- engine.py `Trade.close`: set exit fields and compute P&L. -/
def Trade.close (t : Trade) (exit_time : ℚ) (exit_price : ℚ) (status : TradeStatus) :
    Trade :=
  let diff : ℚ :=
    match t.direction with
    | .long => exit_price - t.entry_price
    | .short => t.entry_price - exit_price
  { t with
    exit_time := some exit_time
    exit_price := some exit_price
    status := status
    pnl := diff * t.position_size
    pnl_pips := diff * 10 }

/-- One OHLCV candle (the `open` column is `op`: `open` is a Lean keyword). -/
structure Candle where
  op : ℚ
  high : ℚ
  low : ℚ
  close : ℚ
  volume : ℚ := 0
deriving DecidableEq, Repr

/-- engine.py `Signal` dataclass (`time` is the candle timestamp). -/
structure Signal where
  time : ℚ
  direction : TradeDirection
  entry_price : ℚ
  stop_loss : ℚ
  take_profit : Option ℚ
  signal_name : String := ""
  confidence : ℚ := 1
  notes : String := ""
deriving DecidableEq, Repr

/-- Constructor parameters of engine.py `BacktestEngine.__init__`. -/
structure BacktestConfig where
  initial_balance : ℚ := 10000
  position_size_pct : ℚ := 2
  commission : ℚ := 0
  slippage : ℚ := 0
deriving DecidableEq, Repr

/-- Mutable fields of engine.py `BacktestEngine`.  Python's `trades` list
holds the same objects as `open_trades`; closing mutates them in place, which
is modelled by `updateTrade` below (ids are unique). -/
structure EngineState where
  balance : ℚ
  trades : List Trade
  open_trades : List Trade
  trade_counter : ℕ
  equity_curve : List ℚ
deriving DecidableEq, Repr

/-- engine.py `BacktestEngine.reset`: the state a fresh engine starts in. -/
def initState (cfg : BacktestConfig) : EngineState :=
  { balance := cfg.initial_balance
    trades := []
    open_trades := []
    trade_counter := 0
    equity_curve := [] }

/-- Replace the stored copy of a trade by its closed version: models the
in-place mutation of the object shared between `trades` and `open_trades`. -/
def updateTrade (ts : List Trade) (t : Trade) : List Trade :=
  ts.map (fun u => if u.id = t.id then t else u)

/-- engine.py `BacktestEngine.calculate_position_size`. -/
def calculate_position_size (cfg : BacktestConfig) (balance entry_price stop_loss : ℚ) :
    ℚ :=
  let risk_amount := balance * (cfg.position_size_pct / 100)
  let risk_per_unit := |entry_price - stop_loss|
  if risk_per_unit ≤ 0 then 0
  else risk_amount / risk_per_unit

/-- The slippage application at the top of engine.py
`BacktestEngine.open_trade`. -/
def adjusted_entry (cfg : BacktestConfig) (signal : Signal) : ℚ :=
  match signal.direction with
  | .long => signal.entry_price + cfg.slippage
  | .short => signal.entry_price - cfg.slippage

/-- engine.py `BacktestEngine.open_trade`: slippage-adjusted entry, position
sizing, abort on non-positive size, commission deducted on open. -/
def open_trade (cfg : BacktestConfig) (st : EngineState) (signal : Signal)
    (current_time : ℚ) : Option Trade × EngineState :=
  let entry_price := adjusted_entry cfg signal
  let position_size := calculate_position_size cfg st.balance entry_price signal.stop_loss
  if position_size ≤ 0 then (none, st)
  else
    let counter := st.trade_counter + 1
    let trade : Trade :=
      { id := counter
        entry_time := current_time
        entry_price := entry_price
        direction := signal.direction
        stop_loss := signal.stop_loss
        take_profit := signal.take_profit
        position_size := position_size
        signal_name := signal.signal_name }
    (some trade,
      { st with
        balance := st.balance - cfg.commission
        trades := st.trades ++ [trade]
        open_trades := st.open_trades ++ [trade]
        trade_counter := counter })

/-- Python truthiness of the optional `take_profit` float in the test
`trade.take_profit and candle['high'] >= trade.take_profit`. -/
def tp_truthy : Option ℚ → Bool
  | none => false
  | some x => decide (x ≠ 0)

/-- The exit decision of engine.py `BacktestEngine.check_and_close_trades`
for one open trade on one candle: stop-loss is checked first, take-profit
only in the `elif` branch. -/
def exit_fill (cfg : BacktestConfig) (t : Trade) (candle : Candle) :
    Option (ℚ × TradeStatus) :=
  match t.direction with
  | .long =>
    if candle.low ≤ t.stop_loss then
      some (t.stop_loss - cfg.slippage, .closed_sl)
    else if tp_truthy t.take_profit = true ∧ t.take_profit.getD 0 ≤ candle.high then
      some (t.take_profit.getD 0 - cfg.slippage, .closed_tp)
    else none
  | .short =>
    if t.stop_loss ≤ candle.high then
      some (t.stop_loss + cfg.slippage, .closed_sl)
    else if tp_truthy t.take_profit = true ∧ candle.low ≤ t.take_profit.getD 0 then
      some (t.take_profit.getD 0 + cfg.slippage, .closed_tp)
    else none

/-- The per-trade body of the loop in `check_and_close_trades`: when the
candle hits an exit the trade is closed and `balance += pnl - commission`;
otherwise the trade stays open. -/
def close_step (cfg : BacktestConfig) (candle : Candle) (current_time : ℚ)
    (st : EngineState) (t : Trade) : EngineState :=
  match exit_fill cfg t candle with
  | some (px, status) =>
    let closed := t.close current_time px status
    { st with
      balance := st.balance + closed.pnl - cfg.commission
      trades := updateTrade st.trades closed }
  | none => { st with open_trades := st.open_trades ++ [t] }

/-- engine.py `BacktestEngine.check_and_close_trades`: every open trade is
tested against the current candle; closed ones leave `open_trades`. -/
def check_and_close_trades (cfg : BacktestConfig) (st : EngineState)
    (candle : Candle) (current_time : ℚ) : EngineState :=
  st.open_trades.foldl (close_step cfg candle current_time)
    { st with open_trades := [] }

/-- One step of the final loop of engine.py `BacktestEngine.run` (its last
lines): a still-open trade is force-closed at the final candle's close with
status `closed_manual` and `balance += pnl` (no commission is deducted
there). -/
def manual_close_step (final_time : ℚ) (final_close : ℚ) (st : EngineState)
    (t : Trade) : EngineState :=
  let closed := t.close final_time final_close .closed_manual
  { st with
    balance := st.balance + closed.pnl
    trades := updateTrade st.trades closed
    open_trades := st.open_trades.filter (fun u => u.id ≠ t.id) }

/-- The whole final loop of `BacktestEngine.run`: iterate `manual_close_step`
over a snapshot of `open_trades` (Python iterates `self.open_trades[:]`). -/
def force_close_open_trades (final_time : ℚ) (final_close : ℚ)
    (st : EngineState) : EngineState :=
  st.open_trades.foldl (manual_close_step final_time final_close) st

/-! ### Technical analysis toolkit (analysis/technical.py) -/

/-- technical.py `SwingPoint` (the `index` timestamp is the candle's
position in the window). -/
structure SwingPoint where
  index : ℕ
  price : ℚ
  is_high : Bool
  strength : ℕ
deriving DecidableEq, Repr

/-- `self.df['high'].values[i]` (out-of-range reads never occur for the
indices the loops touch; 0 is a dummy default). -/
def col_high (df : List Candle) (i : ℕ) : ℚ :=
  ((df.get? i).map Candle.high).getD 0

/-- `self.df['low'].values[i]`. -/
def col_low (df : List Candle) (i : ℕ) : ℚ :=
  ((df.get? i).map Candle.low).getD 0

/-- The inner `for j in range(1, lookback + 1)` loop of
`detect_swing_points`, iterating over the remaining values of `j`: counts
successes, and on the first failing comparison breaks with the flag cleared.
Returns (flag, strength). -/
def swing_scan_go (test : ℕ → Bool) : List ℕ → ℕ → Bool × ℕ
  | [], strength => (true, strength)
  | j :: js, strength =>
    if test j = true then swing_scan_go test js (strength + 1)
    else (false, strength)

/-- The swing-high comparison loop of `detect_swing_points`
(`range(1, lookback + 1)` is `List.range' 1 lookback`):
`highs[i] > highs[i-j] and highs[i] > highs[i+j]`. -/
def swing_high_scan (high : ℕ → ℚ) (i lookback : ℕ) : Bool × ℕ :=
  swing_scan_go
    (fun j => decide (high (i - j) < high i) && decide (high (i + j) < high i))
    (List.range' 1 lookback) 0

/-- The swing-low comparison loop of `detect_swing_points`:
`lows[i] < lows[i-j] and lows[i] < lows[i+j]`. -/
def swing_low_scan (low : ℕ → ℚ) (i lookback : ℕ) : Bool × ℕ :=
  swing_scan_go
    (fun j => decide (low i < low (i - j)) && decide (low i < low (i + j)))
    (List.range' 1 lookback) 0

/-- technical.py `TechnicalAnalysis.detect_swing_points`.  The final
`sort(key=index)` of the source is the identity here: points are generated
in ascending index order. -/
def detect_swing_points (df : List Candle) (lookback min_strength : ℕ) :
    List SwingPoint :=
  (List.range' lookback (df.length - 2 * lookback)).flatMap (fun i =>
    (if (swing_high_scan (col_high df) i lookback).1 = true ∧
        min_strength ≤ (swing_high_scan (col_high df) i lookback).2 then
       [{ index := i, price := col_high df i, is_high := true,
          strength := (swing_high_scan (col_high df) i lookback).2 }]
     else []) ++
    (if (swing_low_scan (col_low df) i lookback).1 = true ∧
        min_strength ≤ (swing_low_scan (col_low df) i lookback).2 then
       [{ index := i, price := col_low df i, is_high := false,
          strength := (swing_low_scan (col_low df) i lookback).2 }]
     else []))

/-- The swing-high rule as the spec (§4.1) words it, for comparison with the
source's `detect_swing_points`: a bar is a swing high iff at least
`min_strength` of the `lookback` two-sided comparisons succeed. -/
def spec_swing_high (high : ℕ → ℚ) (i lookback min_strength : ℕ) : Bool :=
  min_strength ≤ (List.range' 1 lookback).countP
    (fun j => decide (high (i - j) < high i) && decide (high (i + j) < high i))

/-- technical.py `FibonacciLevel` (the display label string is elided). -/
structure FibonacciLevel where
  level : ℚ
  price : ℚ
deriving DecidableEq, Repr

/-- technical.py `TechnicalAnalysis.FIB_LEVELS`. -/
def FIB_LEVELS : List ℚ := [0, 236/1000, 382/1000, 1/2, 618/1000, 786/1000, 1]

/-- technical.py `TechnicalAnalysis.FIB_EXTENSIONS`. -/
def FIB_EXTENSIONS : List ℚ := [1272/1000, 1414/1000, 1618/1000, 2, 2618/1000]

/-- technical.py `TechnicalAnalysis.calculate_fibonacci_retracement`. -/
def calculate_fibonacci_retracement (swing_low swing_high : ℚ)
    (include_extensions : Bool) : List FibonacciLevel :=
  let price_range := swing_high - swing_low
  FIB_LEVELS.map (fun l => { level := l, price := swing_high - price_range * l }) ++
    (if include_extensions then
      FIB_EXTENSIONS.map (fun l => { level := l, price := swing_low + price_range * l })
    else [])

/-- The retracement level prices in the order the source emits them. -/
def fib_prices (swing_low swing_high : ℚ) : List ℚ :=
  (calculate_fibonacci_retracement swing_low swing_high false).map FibonacciLevel.price

/-! ### Rule evaluation engine (signals/gold_strategy.py) -/

/-- gold_strategy.py `RuleResult`. -/
structure RuleResult where
  rule_name : String
  triggered : Bool
  direction : Option TradeDirection := none
  entry_price : Option ℚ := none
  stop_loss : Option ℚ := none
  take_profit : Option ℚ := none
  confidence : ℚ := 0
  notes : String := ""
deriving DecidableEq, Repr

/-- The candle DataFrame handed to `GoldStrategy.evaluate`: its column names
and its rows. -/
structure Frame where
  columns : List String
  rows : List Candle
deriving DecidableEq, Repr

/-- technical.py `TechnicalAnalysis._validate_data` required columns. -/
def REQUIRED_COLUMNS : List String := ["open", "high", "low", "close"]

/-- Whether `TechnicalAnalysis._validate_data` finds no missing column. -/
def has_required_columns (df : Frame) : Bool :=
  REQUIRED_COLUMNS.all (fun c => df.columns.contains c)

/-- A raised Python exception (messages abbreviated). -/
inductive PyError
  | valueError (msg : String)
  | typeError (msg : String)
deriving DecidableEq, Repr

/-- gold_strategy.py `GoldStrategy.DEFAULT_CONFIG`. -/
structure StrategyConfig where
  fib_tolerance : ℚ := 15/1000
  swing_lookback : ℕ := 5
  swing_min_strength : ℕ := 2
  trend_lookback : ℕ := 50
  strong_momentum_threshold : ℚ := 2/100
  atr_period : ℕ := 14
  consolidation_min_candles : ℕ := 5
  consolidation_max_range_atr : ℚ := 3/2
  default_rr : ℚ := 2
  sl_buffer_atr : ℚ := 3/10
  confirmation_candles : ℕ := 2
deriving DecidableEq, Repr

/-- gold_strategy.py default strategy configuration. -/
def default_strategy_config : StrategyConfig := {}

/-- Python `self.rules_enabled.get(name)` on the mutable dict, with a missing
key (`None`) falsy. -/
def dict_get (m : List (String × Bool)) (k : String) : Bool :=
  match m.lookup k with
  | some b => b
  | none => false

/-- `GoldStrategy.__init__`: all six rules enabled. -/
def default_rules_enabled : List (String × Bool) :=
  [("rule_1_618_retracement", true),
   ("rule_2_786_deep_discount", true),
   ("rule_3_236_shallow_pullback", true),
   ("rule_4_consolidation_break", true),
   ("rule_5_ath_breakout_retest", true),
   ("rule_6_50_momentum", true)]

/-- realtime_generator.py `RealtimeSignalGenerator.__init__` with no explicit
strategy: every existing key of `rules_enabled` is set to False, then the key
`momentum_equilibrium` (read by no rule check in `evaluate`) is set True. -/
def realtime_default_rules : List (String × Bool) :=
  [("rule_1_618_retracement", false),
   ("rule_2_786_deep_discount", false),
   ("rule_3_236_shallow_pullback", false),
   ("rule_4_consolidation_break", false),
   ("rule_5_ath_breakout_retest", false),
   ("rule_6_50_momentum", false),
   ("momentum_equilibrium", true)]

/-- The six rule methods `_rule_1_618_retracement` … `_rule_6_50_momentum`.
Their bodies are large numeric heuristics; no claim here constrains their
internals, so the engine-level theorems quantify over arbitrary rule
behaviours, which only strengthens them. -/
structure RuleFns where
  rule_1_618_retracement : Frame → ℕ → RuleResult
  rule_2_786_deep_discount : Frame → ℕ → RuleResult
  rule_3_236_shallow_pullback : Frame → ℕ → RuleResult
  rule_4_consolidation_break : Frame → ℕ → RuleResult
  rule_5_ath_breakout_retest : Frame → ℕ → RuleResult
  rule_6_50_momentum : Frame → ℕ → RuleResult

/-- The rule-collection phase of `GoldStrategy.evaluate`: each enabled rule
runs and its result is kept when `result.triggered`. -/
def run_rules (en : List (String × Bool)) (rules : RuleFns) (df : Frame)
    (idx : ℕ) : List RuleResult :=
  (if dict_get en "rule_1_618_retracement" then
    (let r := rules.rule_1_618_retracement df idx
     if r.triggered then [r] else [])
   else []) ++
  (if dict_get en "rule_2_786_deep_discount" then
    (let r := rules.rule_2_786_deep_discount df idx
     if r.triggered then [r] else [])
   else []) ++
  (if dict_get en "rule_3_236_shallow_pullback" then
    (let r := rules.rule_3_236_shallow_pullback df idx
     if r.triggered then [r] else [])
   else []) ++
  (if dict_get en "rule_4_consolidation_break" then
    (let r := rules.rule_4_consolidation_break df idx
     if r.triggered then [r] else [])
   else []) ++
  (if dict_get en "rule_5_ath_breakout_retest" then
    (let r := rules.rule_5_ath_breakout_retest df idx
     if r.triggered then [r] else [])
   else []) ++
  (if dict_get en "rule_6_50_momentum" then
    (let r := rules.rule_6_50_momentum df idx
     if r.triggered then [r] else [])
   else [])

/-- Python `max(results, key=lambda x: x.confidence)`: the first element of
maximal confidence (later elements replace only on strictly greater key). -/
def max_by_confidence (r : RuleResult) (rs : List RuleResult) : RuleResult :=
  rs.foldl (fun best x => if best.confidence < x.confidence then x else best) r

/-- The `Signal(...)` built from the winning rule at the end of
`GoldStrategy.evaluate`.  A triggered rule always fills the optional fields;
`getD` supplies the dataclass defaults otherwise. -/
def signal_of_result (idx : ℕ) (best : RuleResult) : Signal :=
  { time := (idx : ℚ)
    direction := best.direction.getD .long
    entry_price := best.entry_price.getD 0
    stop_loss := best.stop_loss.getD 0
    take_profit := best.take_profit
    signal_name := best.rule_name
    confidence := best.confidence
    notes := best.notes }

/-- gold_strategy.py `GoldStrategy.evaluate`: the index guard, the
`TechnicalAnalysis` constructor (which raises `ValueError` on a missing
required column — row slicing does not change the columns), the rule
collection and the highest-confidence selection. -/
def evaluate (cfg : StrategyConfig) (en : List (String × Bool)) (rules : RuleFns)
    (df : Frame) (current_idx : ℕ) : Except PyError (Option Signal) :=
  let min_required := max cfg.trend_lookback 60
  if current_idx < min_required then .ok none
  else if has_required_columns df = false then
    .error (.valueError "Missing required columns")
  else
    match run_rules en rules df current_idx with
    | [] => .ok none
    | r :: rs => .ok (some (signal_of_result current_idx (max_by_confidence r rs)))

/-- The triggered results `evaluate` gathers on a call (empty when the index
guard fires first). -/
def triggered_results (cfg : StrategyConfig) (en : List (String × Bool))
    (rules : RuleFns) (df : Frame) (current_idx : ℕ) : List RuleResult :=
  if current_idx < max cfg.trend_lookback 60 then []
  else run_rules en rules df current_idx

/-! ### Real-time validator (signals/realtime_generator.py) -/

/-- The string `"LONG" if signal.direction == TradeDirection.LONG else "SHORT"`. -/
def dirString : TradeDirection → String
  | .long => "LONG"
  | .short => "SHORT"

/-- realtime_generator.py `ValidatedSignal` (timestamps in hours). -/
structure ValidatedSignal where
  timestamp : ℚ
  symbol : String
  timeframe : String
  strategy_name : String
  direction : String
  entry_price : ℚ
  stop_loss : ℚ
  take_profit : ℚ
  confidence : ℚ
  risk_pips : ℚ
  reward_pips : ℚ
  risk_reward : ℚ
  notes : String
  current_price : ℚ
deriving DecidableEq, Repr

/-- Constructor parameters of realtime_generator.py `SignalValidator.__init__`
with their defaults (`min_rr_ratio=1.5`, `max_entry_deviation=0.05`,
`duplicate_window_hours=4`). -/
structure ValidatorConfig where
  min_rr : ℚ := 3/2
  max_entry_deviation : ℚ := 1/20
  duplicate_window_hours : ℚ := 4
deriving DecidableEq, Repr

/-- `SignalValidator()` with no arguments. -/
def default_validator_config : ValidatorConfig := {}

/-- realtime_generator.py `SignalValidator._is_duplicate`: any recent signal
of equal direction with `timestamp > signal_time - duplicate_window_hours`. -/
def validator_is_duplicate (window : ℚ) (recent : List ValidatedSignal)
    (direction : String) (signal_time : ℚ) : Bool :=
  let cutoff := signal_time - window
  recent.any (fun r => r.direction == direction && decide (cutoff < r.timestamp))

/-- realtime_generator.py `SignalValidator.validate`.  `recent` is the
mutable `self.recent_signals` list; `now` is `pd.Timestamp.now()` at the call
(only used by the 24-hour retention prune of accepted signals).  A `None`
`take_profit` would raise an uncaught `TypeError` inside `_is_valid_signal`
(only `AssertionError`/`AttributeError` are caught), modelled as `.error`.
Returns the published signal (or `none`) and the updated recent list. -/
def validate (cfg : ValidatorConfig) (recent : List ValidatedSignal)
    (signal : Signal) (current_price : ℚ) (now : ℚ)
    (symbol timeframe : String) :
    Except PyError (Option ValidatedSignal × List ValidatedSignal) :=
  match signal.take_profit with
  | none => .error (.typeError "unsupported comparison with None")
  | some tp =>
    if ¬ (0 < signal.entry_price ∧ 0 < signal.stop_loss ∧ 0 < tp ∧
          0 ≤ signal.confidence ∧ signal.confidence ≤ 1) then
      .ok (none, recent)
    else
      let direction_str := dirString signal.direction
      let risk_pips :=
        (match signal.direction with
         | .long => signal.entry_price - signal.stop_loss
         | .short => signal.stop_loss - signal.entry_price) * 10
      let reward_pips :=
        (match signal.direction with
         | .long => tp - signal.entry_price
         | .short => signal.entry_price - tp) * 10
      if risk_pips ≤ 0 then .ok (none, recent)
      else if reward_pips ≤ 0 then .ok (none, recent)
      else
        let rr := reward_pips / risk_pips
        if rr < cfg.min_rr then .ok (none, recent)
        else if cfg.max_entry_deviation <
            |signal.entry_price - current_price| / current_price then
          .ok (none, recent)
        else if validator_is_duplicate cfg.duplicate_window_hours recent
            direction_str signal.time then
          .ok (none, recent)
        else
          let validated : ValidatedSignal :=
            { timestamp := signal.time
              symbol := symbol
              timeframe := timeframe
              strategy_name := signal.signal_name
              direction := direction_str
              entry_price := signal.entry_price
              stop_loss := signal.stop_loss
              take_profit := tp
              confidence := signal.confidence
              risk_pips := risk_pips
              reward_pips := reward_pips
              risk_reward := rr
              notes := signal.notes
              current_price := current_price }
          let recent2 := (recent ++ [validated]).filter
            (fun s => decide (now - 24 < s.timestamp))
          .ok (some validated, recent2)

/-! ### Signal deduplicator (signals/signal_deduplicator.py) -/

/-- signal_deduplicator.py `SignalFingerprint`. -/
structure SignalFingerprint where
  direction : String
  strategy_name : String
  entry_price : ℚ
  stop_loss : ℚ
  take_profit : ℚ
  timestamp : ℚ
deriving DecidableEq, Repr

/-- Python `round(x, 2)` (round half to even) on exact values. -/
def round2 (x : ℚ) : ℚ :=
  let y := x * 100
  let f : ℤ := ⌊y⌋
  let frac := y - (f : ℚ)
  (if frac < 1/2 then (f : ℚ)
   else if 1/2 < frac then (f : ℚ) + 1
   else if f % 2 = 0 then (f : ℚ) else (f : ℚ) + 1) / 100

/-- The content of the string hashed by `SignalFingerprint.to_hash`
(the md5 digest is modelled by the injective tuple itself). -/
structure FingerprintKey where
  direction : String
  strategy_name : String
  entry_r : ℚ
  sl_r : ℚ
  tp_r : ℚ
deriving DecidableEq, Repr

/-- signal_deduplicator.py `SignalFingerprint.to_hash`. -/
def to_hash (fp : SignalFingerprint) : FingerprintKey :=
  { direction := fp.direction
    strategy_name := fp.strategy_name
    entry_r := round2 fp.entry_price
    sl_r := round2 fp.stop_loss
    tp_r := round2 fp.take_profit }

/-- The fingerprint `is_duplicate` builds from a `ValidatedSignal`. -/
def mk_fingerprint (s : ValidatedSignal) : SignalFingerprint :=
  { direction := s.direction
    strategy_name := s.strategy_name
    entry_price := s.entry_price
    stop_loss := s.stop_loss
    take_profit := s.take_profit
    timestamp := s.timestamp }

/-- The `self.recent_signals` dict of `SignalDeduplicator`, in insertion
order. -/
abbrev DedupCache := List (FingerprintKey × SignalFingerprint)

/-- signal_deduplicator.py `SignalDeduplicator._cleanup_old_signals`: keep
entries with `timestamp > datetime.now() - window`. -/
def cleanup_old_signals (window now : ℚ) (m : DedupCache) : DedupCache :=
  m.filter (fun p => decide (now - window < p.2.timestamp))

/-- signal_deduplicator.py `SignalDeduplicator.is_duplicate` (`now` is
`datetime.now()` at the call).  Returns the verdict and the updated cache. -/
def is_duplicate (window now : ℚ) (m : DedupCache) (s : ValidatedSignal) :
    Bool × DedupCache :=
  let fp := mk_fingerprint s
  let key := to_hash fp
  let m1 := cleanup_old_signals window now m
  if m1.any (fun p => decide (p.1 = key)) then (true, m1)
  else (false, m1 ++ [(key, fp)])

/-! ### Concrete instances used by counterexamples and witnesses -/

/-- A run configuration with a non-zero commission. -/
def c1_cfg : BacktestConfig := { commission := 5 }

/-- A long trade of size 2, still open when the series ends. -/
def c1_trade : Trade :=
  { id := 1, entry_time := 0, entry_price := 100, direction := .long,
    stop_loss := 90, take_profit := some 120, position_size := 2 }

/-- The engine state at the last candle: one trade still open. -/
def c1_state : EngineState :=
  { balance := 1000, trades := [c1_trade], open_trades := [c1_trade],
    trade_counter := 1, equity_curve := [] }

/-- A configuration with commission 2 for the C1 witness. -/
def c1w_cfg : BacktestConfig := { commission := 2 }

/-- A long trade whose stop-loss the witness candle reaches. -/
def c1w_trade : Trade :=
  { id := 1, entry_time := 0, entry_price := 100, direction := .long,
    stop_loss := 90, take_profit := some 120, position_size := 3 }

/-- A candle whose low pierces the witness trade's stop. -/
def c1w_candle : Candle := { op := 94, high := 95, low := 85, close := 86 }

/-- State holding the witness trade open. -/
def c1w_state : EngineState :=
  { balance := 1000, trades := [c1w_trade], open_trades := [c1w_trade],
    trade_counter := 1, equity_curve := [] }

/-- Five candles whose middle bar beats its immediate neighbours' highs but
not the second bar on its right (highs 5, 1, 10, 1, 20). -/
def c3_df : List Candle :=
  [{ op := 0, high := 5, low := 0, close := 0 },
   { op := 0, high := 1, low := 0, close := 0 },
   { op := 0, high := 10, low := 0, close := 0 },
   { op := 0, high := 1, low := 0, close := 0 },
   { op := 0, high := 20, low := 0, close := 0 }]

/-- An accepted LONG signal recorded at time 0. -/
def c4_recent : ValidatedSignal :=
  { timestamp := 0, symbol := "XAUUSD", timeframe := "1h",
    strategy_name := "Rule6_50_Momentum", direction := "LONG",
    entry_price := 100, stop_loss := 90, take_profit := 120,
    confidence := 4/5, risk_pips := 100, reward_pips := 200, risk_reward := 2,
    notes := "", current_price := 100 }

/-- An equal-direction candidate 10 hours after `c4_recent`, passing every
other validation check. -/
def c4_signal : Signal :=
  { time := 10, direction := .long, entry_price := 100, stop_loss := 90,
    take_profit := some 120, signal_name := "Rule6_50_Momentum",
    confidence := 4/5 }

/-- An equal-direction candidate only 3 hours after `c4_recent`. -/
def c4w_signal : Signal :=
  { time := 3, direction := .long, entry_price := 100, stop_loss := 90,
    take_profit := some 120, signal_name := "Rule6_50_Momentum",
    confidence := 4/5 }

/-- A validated signal with timestamp 0 for the deduplicator witness. -/
def c5_sig : ValidatedSignal :=
  { timestamp := 0, symbol := "XAUUSD", timeframe := "1h",
    strategy_name := "Rule1_618_Golden", direction := "LONG",
    entry_price := 2650, stop_loss := 2635, take_profit := 2680,
    confidence := 3/4, risk_pips := 150, reward_pips := 300, risk_reward := 2,
    notes := "", current_price := 2650 }

/-- A rule implementation returning a fixed result. -/
def constRule (r : RuleResult) : Frame → ℕ → RuleResult := fun _ _ => r

/-- A rule result that never triggers. -/
def silentResult : RuleResult := { rule_name := "silent", triggered := false }

/-- Six rules none of which ever triggers. -/
def silent_rules : RuleFns :=
  { rule_1_618_retracement := constRule silentResult
    rule_2_786_deep_discount := constRule silentResult
    rule_3_236_shallow_pullback := constRule silentResult
    rule_4_consolidation_break := constRule silentResult
    rule_5_ath_breakout_retest := constRule silentResult
    rule_6_50_momentum := constRule silentResult }

/-- A triggered long candidate of confidence 0.7. -/
def c6_result_a : RuleResult :=
  { rule_name := "Rule1_618_Golden"
    triggered := true
    direction := some .long
    entry_price := some 100
    stop_loss := some 90
    take_profit := some 120
    confidence := 7/10 }

/-- A triggered short candidate of confidence 0.9. -/
def c6_result_b : RuleResult :=
  { rule_name := "Rule2_786_DeepDiscount"
    triggered := true
    direction := some .short
    entry_price := some 100
    stop_loss := some 110
    take_profit := some 80
    confidence := 9/10 }

/-- Two triggering rules of different confidence, four silent ones. -/
def c6_rules : RuleFns :=
  { rule_1_618_retracement := constRule c6_result_a
    rule_2_786_deep_discount := constRule c6_result_b
    rule_3_236_shallow_pullback := constRule silentResult
    rule_4_consolidation_break := constRule silentResult
    rule_5_ath_breakout_retest := constRule silentResult
    rule_6_50_momentum := constRule silentResult }

/-- A well-formed frame (all required columns present). -/
def c6_frame : Frame :=
  { columns := ["open", "high", "low", "close", "volume"], rows := [] }

/-- A frame whose `close` column is missing. -/
def bad_frame : Frame := { columns := ["open", "high", "low"], rows := [] }

/-! ### C3: swing-point detection -/

/-- Helper: the comparison loop succeeds iff every pending comparison does,
and then the strength counts them all (the source's early `break` makes
partial credit impossible). -/
lemma swing_scan_go_spec (test : ℕ → Bool) :
    ∀ (js : List ℕ) (s : ℕ),
      ((swing_scan_go test js s).1 = true ↔ ∀ j ∈ js, test j = true) ∧
      ((swing_scan_go test js s).1 = true →
        (swing_scan_go test js s).2 = s + js.length) := by
  intro js
  induction js with
  | nil => intro s; simp [swing_scan_go]
  | cons j js ih =>
    intro s
    by_cases h : test j = true
    · have hstep : swing_scan_go test (j :: js) s = swing_scan_go test js (s + 1) := by
        simp [swing_scan_go, h]
      have hrec := ih (s + 1)
      constructor
      · rw [hstep, hrec.1]
        simp [List.forall_mem_cons, h]
      · intro htrue
        rw [hstep] at htrue ⊢
        rw [hrec.2 htrue]
        simp
        omega
    · have hstep : swing_scan_go test (j :: js) s = (false, s) := by
        simp [swing_scan_go, h]
      constructor
      · rw [hstep]
        simp
        intro hj
        exact absurd hj h
      · intro htrue
        rw [hstep] at htrue
        simp at htrue

/-- Helper: `swing_high_scan` succeeds iff the bar beats all `lookback`
highs on both sides, and then reports strength = `lookback`. -/
lemma swing_high_scan_spec (high : ℕ → ℚ) (i lookback : ℕ) :
    ((swing_high_scan high i lookback).1 = true ↔
      ∀ j, 1 ≤ j → j ≤ lookback → high (i - j) < high i ∧ high (i + j) < high i) ∧
    ((swing_high_scan high i lookback).1 = true →
      (swing_high_scan high i lookback).2 = lookback) := by
  have h := swing_scan_go_spec
    (fun j => decide (high (i - j) < high i) && decide (high (i + j) < high i))
    (List.range' 1 lookback) 0
  constructor
  · rw [swing_high_scan, h.1]
    constructor
    · intro hall j h1 h2
      have := hall j (by rw [List.mem_range'_1]; omega)
      simpa using this
    · intro hall j hj
      rw [List.mem_range'_1] at hj
      have := hall j hj.1 (by omega)
      simpa using this
  · intro htrue
    rw [swing_high_scan] at htrue ⊢
    rw [h.2 htrue]
    simp

/-- Helper: the mirror statement for `swing_low_scan`. -/
lemma swing_low_scan_spec (low : ℕ → ℚ) (i lookback : ℕ) :
    ((swing_low_scan low i lookback).1 = true ↔
      ∀ j, 1 ≤ j → j ≤ lookback → low i < low (i - j) ∧ low i < low (i + j)) ∧
    ((swing_low_scan low i lookback).1 = true →
      (swing_low_scan low i lookback).2 = lookback) := by
  have h := swing_scan_go_spec
    (fun j => decide (low i < low (i - j)) && decide (low i < low (i + j)))
    (List.range' 1 lookback) 0
  constructor
  · rw [swing_low_scan, h.1]
    constructor
    · intro hall j h1 h2
      have := hall j (by rw [List.mem_range'_1]; omega)
      simpa using this
    · intro hall j hj
      rw [List.mem_range'_1] at hj
      have := hall j hj.1 (by omega)
      simpa using this
  · intro htrue
    rw [swing_low_scan] at htrue ⊢
    rw [h.2 htrue]
    simp

/-- C3 (counterexample).  With `lookback = 2`, `min_strength = 1` and highs
5, 1, 10, 1, 20, bar 2 beats both immediate neighbours, so 1 of the 2
two-sided comparisons succeeds (≥ min_strength) and the spec's rule calls it
a swing high; the source's loop breaks at j = 2 (10 < 20) and
`detect_swing_points` reports nothing at all. -/
theorem c3_counterexample :
    detect_swing_points c3_df 2 1 = [] ∧
    spec_swing_high (col_high c3_df) 2 2 1 = true := by decide

/-- C3 (amended).  `detect_swing_points` reports bar `i` as a swing high iff
`i` has `lookback` bars on both sides, its high strictly exceeds the highs
of ALL `lookback` bars on each side (the loop breaks on the first failure,
so partial credit is impossible and the reported strength always equals
`lookback`), and `min_strength ≤ lookback`; the mirror holds for swing
lows. -/
theorem c3_swing_points_characterization (df : List Candle)
    (lookback min_strength i : ℕ) :
    ((∃ sp ∈ detect_swing_points df lookback min_strength,
        sp.index = i ∧ sp.is_high = true) ↔
      (lookback ≤ i ∧ i + lookback < df.length ∧ min_strength ≤ lookback ∧
        ∀ j, 1 ≤ j → j ≤ lookback →
          col_high df (i - j) < col_high df i ∧
            col_high df (i + j) < col_high df i)) ∧
    ((∃ sp ∈ detect_swing_points df lookback min_strength,
        sp.index = i ∧ sp.is_high = false) ↔
      (lookback ≤ i ∧ i + lookback < df.length ∧ min_strength ≤ lookback ∧
        ∀ j, 1 ≤ j → j ≤ lookback →
          col_low df i < col_low df (i - j) ∧
            col_low df i < col_low df (i + j))) := by
  constructor
  · constructor
    · rintro ⟨sp, hmem, hidx, hhigh⟩
      rw [detect_swing_points, List.mem_flatMap] at hmem
      obtain ⟨a, ha, hsp⟩ := hmem
      rw [List.mem_range'_1] at ha
      rw [List.mem_append] at hsp
      rcases hsp with hsp | hsp
      · split_ifs at hsp with hc
        · simp only [List.mem_singleton] at hsp
          subst hsp
          simp only at hidx hhigh
          subst hidx
          have hs := swing_high_scan_spec (col_high df) a lookback
          refine ⟨ha.1, by omega, ?_, (hs.1).mp hc.1⟩
          have := hs.2 hc.1
          omega
        · simp at hsp
      · split_ifs at hsp with hc
        · simp only [List.mem_singleton] at hsp
          subst hsp
          simp at hhigh
        · simp at hsp
    · rintro ⟨h1, h2, h3, h4⟩
      have hs := swing_high_scan_spec (col_high df) i lookback
      have htrue : (swing_high_scan (col_high df) i lookback).1 = true :=
        (hs.1).mpr h4
      refine ⟨{ index := i, price := col_high df i, is_high := true,
                strength := (swing_high_scan (col_high df) i lookback).2 },
        ?_, rfl, rfl⟩
      rw [detect_swing_points, List.mem_flatMap]
      refine ⟨i, by rw [List.mem_range'_1]; omega, ?_⟩
      rw [List.mem_append]
      left
      rw [if_pos ⟨htrue, by rw [hs.2 htrue]; exact h3⟩]
      simp
  · constructor
    · rintro ⟨sp, hmem, hidx, hlow⟩
      rw [detect_swing_points, List.mem_flatMap] at hmem
      obtain ⟨a, ha, hsp⟩ := hmem
      rw [List.mem_range'_1] at ha
      rw [List.mem_append] at hsp
      rcases hsp with hsp | hsp
      · split_ifs at hsp with hc
        · simp only [List.mem_singleton] at hsp
          subst hsp
          simp at hlow
        · simp at hsp
      · split_ifs at hsp with hc
        · simp only [List.mem_singleton] at hsp
          subst hsp
          simp only at hidx hlow
          subst hidx
          have hs := swing_low_scan_spec (col_low df) a lookback
          refine ⟨ha.1, by omega, ?_, (hs.1).mp hc.1⟩
          have := hs.2 hc.1
          omega
        · simp at hsp
    · rintro ⟨h1, h2, h3, h4⟩
      have hs := swing_low_scan_spec (col_low df) i lookback
      have htrue : (swing_low_scan (col_low df) i lookback).1 = true :=
        (hs.1).mpr h4
      refine ⟨{ index := i, price := col_low df i, is_high := false,
                strength := (swing_low_scan (col_low df) i lookback).2 },
        ?_, rfl, rfl⟩
      rw [detect_swing_points, List.mem_flatMap]
      refine ⟨i, by rw [List.mem_range'_1]; omega, ?_⟩
      rw [List.mem_append]
      right
      rw [if_pos ⟨htrue, by rw [hs.2 htrue]; exact h3⟩]
      simp
/-! ### C1: balance bookkeeping on trade close -/

/-- C1 (counterexample).  The claim states that every close — including the
forced manual close of still-open trades at the end of the series — updates
the balance by `pnl - commission`.  With commission 5 and one open trade of
P&L 20, the end-of-run manual close leaves balance 1020, while the claimed
equation yields 1015 ≠ 1020: the manual close deducts no commission. -/
theorem c1_counterexample :
    (force_close_open_trades 3 110 c1_state).balance = 1020 ∧
    c1_state.balance + (Trade.close c1_trade 3 110 .closed_manual).pnl -
      c1_cfg.commission = 1015 ∧
    ((1020 : ℚ) = 1015 → False) := by
  refine ⟨?_, ?_, by norm_num⟩
  · simp [force_close_open_trades, c1_state, manual_close_step, c1_trade,
      Trade.close, updateTrade]
    norm_num
  · simp [c1_state, c1_trade, c1_cfg, Trade.close]
    norm_num

/-- C1 (amended).  A trade closed by stop-loss or take-profit inside
`check_and_close_trades` updates the balance by exactly `pnl - commission`;
the forced manual close at the end of the series updates it by exactly `pnl`
with no commission deducted. -/
theorem c1_balance_update (cfg : BacktestConfig) (candle : Candle)
    (current_time : ℚ) (st : EngineState) (t : Trade) (px : ℚ)
    (status : TradeStatus) (final_time final_close : ℚ) (st2 : EngineState)
    (t2 : Trade) (h : exit_fill cfg t candle = some (px, status)) :
    (close_step cfg candle current_time st t).balance =
      st.balance + (Trade.close t current_time px status).pnl -
        cfg.commission ∧
    (manual_close_step final_time final_close st2 t2).balance =
      st2.balance + (Trade.close t2 final_time final_close .closed_manual).pnl := by
  constructor
  · simp [close_step, h]
  · simp [manual_close_step]

/-- C1 witness: the amended statement at a concrete stop-loss close
(balance 1000, pnl (90-100)·3 = -30, commission 2 → 968) and a concrete
manual close. -/
theorem c1_balance_update_witness :
    (close_step c1w_cfg c1w_candle 1 c1w_state c1w_trade).balance =
      c1w_state.balance + (Trade.close c1w_trade 1 90 .closed_sl).pnl -
        c1w_cfg.commission ∧
    (manual_close_step 2 105 c1w_state c1w_trade).balance =
      c1w_state.balance + (Trade.close c1w_trade 2 105 .closed_manual).pnl :=
  c1_balance_update c1w_cfg c1w_candle 1 c1w_state c1w_trade 90 .closed_sl
    2 105 c1w_state c1w_trade
    (by simp [exit_fill, c1w_cfg, c1w_trade, c1w_candle, tp_truthy]; norm_num)

/-! ### C2: stop-loss checked before take-profit -/

/-- C2.  On any candle, a long trade whose stop-loss the candle's low
reaches closes at `stop_loss - slippage` with status `closed_sl`, whatever
the candle's high does; a `closed_tp` exit can only happen when the
stop-loss was not hit on that candle.  The mirror holds for shorts with
high/low swapped. -/
theorem c2_stop_loss_priority (cfg : BacktestConfig) (t : Trade)
    (candle : Candle) :
    (t.direction = .long →
      (candle.low ≤ t.stop_loss →
        exit_fill cfg t candle = some (t.stop_loss - cfg.slippage, .closed_sl)) ∧
      ∀ px, exit_fill cfg t candle = some (px, .closed_tp) →
        t.stop_loss < candle.low) ∧
    (t.direction = .short →
      (t.stop_loss ≤ candle.high →
        exit_fill cfg t candle = some (t.stop_loss + cfg.slippage, .closed_sl)) ∧
      ∀ px, exit_fill cfg t candle = some (px, .closed_tp) →
        candle.high < t.stop_loss) := by
  constructor
  · intro hdir
    constructor
    · intro hlow
      simp only [exit_fill, hdir]
      simp [hlow]
    · intro px hpx
      simp only [exit_fill, hdir] at hpx
      by_cases hlow : candle.low ≤ t.stop_loss
      · simp [hlow] at hpx
      · exact lt_of_not_le hlow
  · intro hdir
    constructor
    · intro hhigh
      simp only [exit_fill, hdir]
      simp [hhigh]
    · intro px hpx
      simp only [exit_fill, hdir] at hpx
      by_cases hhigh : t.stop_loss ≤ candle.high
      · simp [hhigh] at hpx
      · exact lt_of_not_le hhigh

/-! ### C7: position sizing -/

/-- C7.  Whenever `|entry - stop| > 0` the position size is
`balance · (risk percent / 100) / |entry - stop|`; a computed size that is
zero or negative makes `open_trade` return no trade and leave the state
unchanged; and the concrete scenario balance 10000, risk 2 %, entry 2000,
stop 1990 sizes to exactly 20. -/
theorem c7_position_sizing (cfg : BacktestConfig) (st : EngineState)
    (signal : Signal) (current_time : ℚ) (balance entry stop : ℚ)
    (h : 0 < |entry - stop|) :
    calculate_position_size cfg balance entry stop =
      balance * (cfg.position_size_pct / 100) / |entry - stop| ∧
    (calculate_position_size cfg st.balance (adjusted_entry cfg signal)
        signal.stop_loss ≤ 0 →
      open_trade cfg st signal current_time = (none, st)) ∧
    calculate_position_size { position_size_pct := 2 } 10000 2000 1990 = 20 := by
  refine ⟨?_, ?_, by simp [calculate_position_size]; norm_num⟩
  · simp [calculate_position_size, not_le.mpr h]
  · intro habort
    simp [open_trade, habort]

/-- C7 witness: the amended statement at entry 2000, stop 1990, balance
10000, risk 2 % (size 20), with an aborting open at zero balance. -/
theorem c7_position_sizing_witness :
    calculate_position_size { position_size_pct := 2 } 10000 2000 1990 =
      10000 * (((2 : ℚ)) / 100) / |(2000 : ℚ) - 1990| ∧
    (calculate_position_size { position_size_pct := 2 }
        ({ balance := 0, trades := [], open_trades := [], trade_counter := 0,
           equity_curve := [] } : EngineState).balance
        (adjusted_entry { position_size_pct := 2 } c4_signal)
        c4_signal.stop_loss ≤ 0 →
      open_trade { position_size_pct := 2 }
        { balance := 0, trades := [], open_trades := [], trade_counter := 0,
          equity_curve := [] } c4_signal 0 =
        (none,
          { balance := 0, trades := [], open_trades := [], trade_counter := 0,
            equity_curve := [] })) ∧
    calculate_position_size { position_size_pct := 2 } 10000 2000 1990 = 20 := by
  have h := c7_position_sizing { position_size_pct := 2 }
    { balance := 0, trades := [], open_trades := [], trade_counter := 0,
      equity_curve := [] } c4_signal 0 10000 2000 1990 (by norm_num)
  exact ⟨by rw [h.1], h.2.1, h.2.2⟩


/-! ### C4: validator duplicate suppression window -/

/-- C4 (counterexample).  The claim says the default Validator rejects a
candidate whenever an equal-direction signal was accepted within the
preceding 24 hours.  With a LONG signal accepted 10 hours earlier (well
inside 24 h) and a LONG candidate passing every other check, `validate`
accepts: the default `duplicate_window_hours` is 4, not 24. -/
theorem c4_counterexample :
    ((validate default_validator_config [c4_recent] c4_signal 100 10
        "XAUUSD" "1h").toOption.map (fun p => p.1.isSome)) = some true ∧
    c4_recent.direction = dirString c4_signal.direction ∧
    (0 : ℚ) ≤ c4_signal.time - c4_recent.timestamp ∧
    c4_signal.time - c4_recent.timestamp ≤ 24 := by
  refine ⟨?_, rfl, by norm_num [c4_signal, c4_recent], by norm_num [c4_signal, c4_recent]⟩
  norm_num [validate, c4_signal, c4_recent, default_validator_config,
    dirString, validator_is_duplicate]
  exact ⟨_, ⟨_, rfl⟩, rfl⟩

/-- C4 (amended).  With its default configuration the Validator rejects
(returns no ValidatedSignal and leaves its in-memory recent list unchanged)
any well-formed candidate whenever an equal-direction signal was accepted
within the preceding 4 hours (the default `duplicate_window_hours`),
measuring from the candidate's own timestamp. -/
theorem c4_duplicate_window (recent : List ValidatedSignal) (signal : Signal)
    (current_price now : ℚ) (symbol timeframe : String) (tp : ℚ)
    (htp : signal.take_profit = some tp)
    (hdup : validator_is_duplicate 4 recent (dirString signal.direction)
      signal.time = true) :
    validate default_validator_config recent signal current_price now
      symbol timeframe = .ok (none, recent) := by
  have hdup' : validator_is_duplicate
      default_validator_config.duplicate_window_hours recent
      (dirString signal.direction) signal.time = true := hdup
  simp only [validate, htp]
  split_ifs <;> rfl

/-- C4 witness: a LONG candidate 3 hours after an accepted LONG signal is
rejected by the default validator. -/
theorem c4_duplicate_window_witness :
    validate default_validator_config [c4_recent] c4w_signal 100 3
      "XAUUSD" "1h" = .ok (none, [c4_recent]) :=
  c4_duplicate_window [c4_recent] c4w_signal 100 3 "XAUUSD" "1h" 120 rfl
    (by norm_num [validator_is_duplicate, c4_recent, c4w_signal, dirString])

/-! ### C5: deduplicator first/second/expired occurrences -/

/-- Helper: entries surviving the cleanup sweep were in the cache before. -/
lemma cleanup_subset (window now : ℚ) (m : DedupCache) :
    ∀ p ∈ cleanup_old_signals window now m, p ∈ m := by
  intro p hp
  exact List.mem_of_mem_filter hp

/-- Helper: a cache with no entry for a key reports no match for it. -/
lemma any_key_of_fresh (key : FingerprintKey) (m : DedupCache)
    (hfresh : ∀ p ∈ m, p.1 ≠ key) :
    m.any (fun p => decide (p.1 = key)) = false := by
  rw [List.any_eq_false]
  intro p hp
  simpa using hfresh p hp

/-- C5.  For a fingerprint not yet in the cache: the first occurrence is not
a duplicate (and is recorded); a second occurrence checked while the window
has not yet elapsed since the recorded signal's timestamp is a duplicate;
an occurrence checked after the window has elapsed since the recorded
signal's timestamp is not a duplicate again. -/
theorem c5_dedup_lifecycle (window t1 t2 t3 : ℚ) (m : DedupCache)
    (s s2 s3 : ValidatedSignal)
    (hfresh : ∀ p ∈ m, p.1 ≠ to_hash (mk_fingerprint s))
    (hk2 : to_hash (mk_fingerprint s2) = to_hash (mk_fingerprint s))
    (hk3 : to_hash (mk_fingerprint s3) = to_hash (mk_fingerprint s))
    (hwin2 : t2 - window < s.timestamp)
    (hwin3 : s.timestamp ≤ t3 - window) :
    (is_duplicate window t1 m s).1 = false ∧
    (is_duplicate window t2 (is_duplicate window t1 m s).2 s2).1 = true ∧
    (is_duplicate window t3 (is_duplicate window t1 m s).2 s3).1 = false := by
  have hany1 : (cleanup_old_signals window t1 m).any
      (fun p => decide (p.1 = to_hash (mk_fingerprint s))) = false :=
    any_key_of_fresh _ _ (fun p hp => hfresh p (cleanup_subset window t1 m p hp))
  have hstate : (is_duplicate window t1 m s).2 =
      cleanup_old_signals window t1 m ++ [(to_hash (mk_fingerprint s), mk_fingerprint s)] := by
    simp [is_duplicate, hany1]
  have hfst1 : (is_duplicate window t1 m s).1 = false := by
    simp [is_duplicate, hany1]
  refine ⟨hfst1, ?_, ?_⟩
  · rw [show is_duplicate window t2 (is_duplicate window t1 m s).2 s2 =
        is_duplicate window t2 (cleanup_old_signals window t1 m ++
          [(to_hash (mk_fingerprint s), mk_fingerprint s)]) s2 from by rw [hstate]]
    rw [is_duplicate]
    have hmem : (to_hash (mk_fingerprint s), mk_fingerprint s) ∈
        cleanup_old_signals window t2 (cleanup_old_signals window t1 m ++
          [(to_hash (mk_fingerprint s), mk_fingerprint s)]) := by
      rw [cleanup_old_signals, List.mem_filter]
      constructor
      · simp
      · simpa [mk_fingerprint] using hwin2
    have hany : (cleanup_old_signals window t2 (cleanup_old_signals window t1 m ++
        [(to_hash (mk_fingerprint s), mk_fingerprint s)])).any
        (fun p => decide (p.1 = to_hash (mk_fingerprint s2))) = true := by
      rw [List.any_eq_true]
      exact ⟨_, hmem, by simp [hk2]⟩
    simp [hany]
  · rw [show is_duplicate window t3 (is_duplicate window t1 m s).2 s3 =
        is_duplicate window t3 (cleanup_old_signals window t1 m ++
          [(to_hash (mk_fingerprint s), mk_fingerprint s)]) s3 from by rw [hstate]]
    rw [is_duplicate]
    have hclean : cleanup_old_signals window t3 (cleanup_old_signals window t1 m ++
        [(to_hash (mk_fingerprint s), mk_fingerprint s)]) =
        cleanup_old_signals window t3 (cleanup_old_signals window t1 m) := by
      rw [cleanup_old_signals, cleanup_old_signals, List.filter_append]
      have : ¬ (t3 - window < (mk_fingerprint s).timestamp) := by
        simpa [mk_fingerprint] using not_lt.mpr hwin3
      simp [this, cleanup_old_signals, List.filter_filter]
    have hany : (cleanup_old_signals window t3 (cleanup_old_signals window t1 m ++
        [(to_hash (mk_fingerprint s), mk_fingerprint s)])).any
        (fun p => decide (p.1 = to_hash (mk_fingerprint s3))) = false := by
      rw [hclean]
      refine any_key_of_fresh _ _ ?_
      intro p hp
      rw [hk3]
      exact hfresh p (cleanup_subset window t1 m p
        (cleanup_subset window t3 _ p hp))
    simp [hany]

/-- C5 witness: window 4 h, first check at t = 0, duplicate at t = 3,
unique again at t = 5. -/
theorem c5_dedup_lifecycle_witness :
    (is_duplicate 4 0 [] c5_sig).1 = false ∧
    (is_duplicate 4 3 (is_duplicate 4 0 [] c5_sig).2 c5_sig).1 = true ∧
    (is_duplicate 4 5 (is_duplicate 4 0 [] c5_sig).2 c5_sig).1 = false :=
  c5_dedup_lifecycle 4 0 3 5 [] c5_sig c5_sig c5_sig
    (by simp) rfl rfl (by norm_num [c5_sig]) (by norm_num [c5_sig])

/-! ### C6: highest-confidence candidate selection -/

/-- Helper: Python `max(results, key=confidence)`, modelled by its faithful
fold, returns an element of the list whose confidence bounds them all. -/
lemma max_by_confidence_spec :
    ∀ (rs : List RuleResult) (r : RuleResult),
      (max_by_confidence r rs = r ∨ max_by_confidence r rs ∈ rs) ∧
      r.confidence ≤ (max_by_confidence r rs).confidence ∧
      ∀ x ∈ rs, x.confidence ≤ (max_by_confidence r rs).confidence := by
  intro rs
  induction rs with
  | nil => intro r; refine ⟨Or.inl rfl, le_refl _, by simp⟩
  | cons x xs ih =>
    intro r
    have hstep : max_by_confidence r (x :: xs) =
        max_by_confidence (if r.confidence < x.confidence then x else r) xs := rfl
    obtain ⟨hmem, hle, hall⟩ := ih (if r.confidence < x.confidence then x else r)
    have hxr : r.confidence ≤ (if r.confidence < x.confidence then x else r).confidence := by
      split_ifs with hc
      · exact le_of_lt hc
      · exact le_refl _
    have hxx : x.confidence ≤ (if r.confidence < x.confidence then x else r).confidence := by
      split_ifs with hc
      · exact le_refl _
      · exact le_of_not_lt hc
    refine ⟨?_, le_trans hxr hle, ?_⟩
    · rw [hstep]
      rcases hmem with hmem | hmem
      · rw [hmem]
        split_ifs with hc
        · right; exact List.mem_cons_self x xs
        · left; rfl
      · right; exact List.mem_cons_of_mem x hmem
    · intro y hy
      rw [hstep]
      rcases List.mem_cons.mp hy with rfl | hy
      · exact le_trans hxx hle
      · exact hall y hy

/-- Helper: everything `run_rules` collects is a triggered result. -/
lemma run_rules_triggered (en : List (String × Bool)) (rules : RuleFns)
    (df : Frame) (idx : ℕ) :
    ∀ x ∈ run_rules en rules df idx, x.triggered = true := by
  intro x hx
  rw [run_rules] at hx
  simp only [List.mem_append] at hx
  rcases hx with ((((hx | hx) | hx) | hx) | hx) | hx <;>
    (split_ifs at hx with h1 h2 <;> simp_all)

/-- C6.  On a well-formed window, `evaluate` returns no signal exactly when
no enabled rule triggers; and when it returns a signal, that signal is
built from one of the triggered rules' candidates and its confidence is the
maximum confidence among all triggered rules on that candle. -/
theorem c6_highest_confidence (cfg : StrategyConfig) (en : List (String × Bool))
    (rules : RuleFns) (df : Frame) (idx : ℕ)
    (hcols : has_required_columns df = true) :
    (evaluate cfg en rules df idx = .ok none ↔
      triggered_results cfg en rules df idx = []) ∧
    ∀ sig, evaluate cfg en rules df idx = .ok (some sig) →
      (∃ r ∈ triggered_results cfg en rules df idx,
        r.triggered = true ∧ sig = signal_of_result idx r) ∧
      ∀ r ∈ triggered_results cfg en rules df idx,
        r.confidence ≤ sig.confidence := by
  by_cases hidx : idx < max cfg.trend_lookback 60
  · constructor
    · simp [evaluate, triggered_results, hidx]
    · intro sig hsig
      simp [evaluate, hidx] at hsig
  · have hcols' : ¬ has_required_columns df = false := by simp [hcols]
    constructor
    · rw [evaluate, triggered_results, if_neg hidx, if_neg hidx, if_neg hcols']
      cases hrr : run_rules en rules df idx with
      | nil => simp
      | cons r rs => simp
    · intro sig hsig
      rw [evaluate, if_neg hidx, if_neg hcols'] at hsig
      rw [triggered_results, if_neg hidx]
      cases hrr : run_rules en rules df idx with
      | nil => rw [hrr] at hsig; simp at hsig
      | cons r rs =>
        rw [hrr] at hsig
        simp only [Except.ok.injEq, Option.some.injEq] at hsig
        obtain ⟨hmem, hle, hall⟩ := max_by_confidence_spec rs r
        have hmem' : max_by_confidence r rs ∈ r :: rs := by
          rcases hmem with hmem | hmem
          · rw [hmem]; exact List.mem_cons_self r rs
          · exact List.mem_cons_of_mem r hmem
        constructor
        · refine ⟨max_by_confidence r rs, hmem', ?_, hsig.symm⟩
          exact run_rules_triggered en rules df idx _ (by rw [hrr]; exact hmem')
        · intro q hq
          have : q.confidence ≤ (max_by_confidence r rs).confidence := by
            rcases List.mem_cons.mp hq with rfl | hq
            · exact hle
            · exact hall q hq
          rw [← hsig]
          simpa [signal_of_result] using this

/-- C6 witness: two triggering rules (confidence 0.7 and 0.9) on a
well-formed frame at index 60. -/
theorem c6_highest_confidence_witness :
    (evaluate default_strategy_config default_rules_enabled c6_rules c6_frame 60 = .ok none ↔
      triggered_results default_strategy_config default_rules_enabled c6_rules c6_frame 60 = []) ∧
    ∀ sig, evaluate default_strategy_config default_rules_enabled c6_rules c6_frame 60 = .ok (some sig) →
      (∃ r ∈ triggered_results default_strategy_config default_rules_enabled c6_rules c6_frame 60,
        r.triggered = true ∧ sig = signal_of_result 60 r) ∧
      ∀ r ∈ triggered_results default_strategy_config default_rules_enabled c6_rules c6_frame 60,
        r.confidence ≤ sig.confidence :=
  c6_highest_confidence default_strategy_config default_rules_enabled c6_rules
    c6_frame 60 (by decide)

/-! ### C8: insufficient versus malformed input -/

/-- C8 (counterexample).  The claim says a malformed window (for example one
missing the `close` column) yields no signal and never an error.  In the
source, `GoldStrategy.evaluate` constructs `TechnicalAnalysis`, whose
`_validate_data` raises an uncaught `ValueError` on the missing column. -/
theorem c8_counterexample :
    evaluate default_strategy_config default_rules_enabled silent_rules bad_frame 60 =
      .error (.valueError "Missing required columns") := by
  rfl

/-- C8 (amended).  Insufficient data — an index below
`max(trend_lookback, 60)` — yields no signal and no error; but a window
missing one of the required open/high/low/close columns makes `evaluate`
raise `ValueError` from `TechnicalAnalysis._validate_data` instead of
returning no signal. -/
theorem c8_insufficient_vs_malformed (cfg : StrategyConfig)
    (en : List (String × Bool)) (rules : RuleFns) (df : Frame) (idx : ℕ) :
    (idx < max cfg.trend_lookback 60 → evaluate cfg en rules df idx = .ok none) ∧
    (max cfg.trend_lookback 60 ≤ idx → has_required_columns df = false →
      evaluate cfg en rules df idx =
        .error (.valueError "Missing required columns")) := by
  constructor
  · intro h
    simp [evaluate, h]
  · intro h1 h2
    rw [evaluate, if_neg (not_lt.mpr h1)]
    simp [h2]

/-! ### C9: Fibonacci level monotonicity -/

/-- C9 (counterexample).  The claim quantifies over every pair
(swing_low, swing_high); at the degenerate pair (1, 1) all seven level
prices are equal, so the sequence is not strictly monotonic in either
direction. -/
theorem c9_counterexample :
    fib_prices 1 1 = [1, 1, 1, 1, 1, 1, 1] ∧
    (List.Chain' (fun a b : ℚ => a > b) (fib_prices 1 1) → False) ∧
    (List.Chain' (fun a b : ℚ => a < b) (fib_prices 1 1) → False) := by
  have he : fib_prices 1 1 = [1, 1, 1, 1, 1, 1, 1] := by
    simp [fib_prices, calculate_fibonacci_retracement, FIB_LEVELS]
  refine ⟨he, ?_, ?_⟩
  · intro hch
    rw [he] at hch
    simp [List.chain'_cons] at hch
  · intro hch
    rw [he] at hch
    simp [List.chain'_cons] at hch

/-- C9 (amended).  Whenever `swing_low ≠ swing_high`, the seven retracement
level prices move strictly from `swing_high` (level 0) toward `swing_low`
(level 1): each consecutive step has sign opposite to
`swing_high - swing_low`, the sequence starts at `swing_high` and ends at
`swing_low`, in both trend directions. -/
theorem c9_fib_monotonic (swing_low swing_high : ℚ)
    (h : swing_low ≠ swing_high) :
    List.Chain' (fun a b => (b - a) * (swing_high - swing_low) < 0)
      (fib_prices swing_low swing_high) ∧
    (fib_prices swing_low swing_high).head? = some swing_high ∧
    (fib_prices swing_low swing_high).getLast? = some swing_low := by
  have hr : swing_high - swing_low ≠ 0 := sub_ne_zero.mpr (Ne.symm h)
  have hr2 : 0 < (swing_high - swing_low) * (swing_high - swing_low) := by
    rcases hr.lt_or_lt with h1 | h1
    · exact mul_pos_of_neg_of_neg h1 h1
    · exact mul_pos h1 h1
  refine ⟨?_, ?_, ?_⟩
  · simp [fib_prices, calculate_fibonacci_retracement, FIB_LEVELS,
      List.chain'_cons]
    refine ⟨?_, ?_, ?_, ?_, ?_, ?_⟩ <;> nlinarith [hr2]
  · simp [fib_prices, calculate_fibonacci_retracement, FIB_LEVELS]
  · simp [fib_prices, calculate_fibonacci_retracement, FIB_LEVELS]

/-- C9 witness: the amended statement at swing_low 100, swing_high 110. -/
theorem c9_fib_monotonic_witness :
    List.Chain' (fun a b => (b - a) * ((110 : ℚ) - 100) < 0)
      (fib_prices 100 110) ∧
    (fib_prices 100 110).head? = some 110 ∧
    (fib_prices 100 110).getLast? = some 100 :=
  c9_fib_monotonic 100 110 (by norm_num)

/-! ### C10: realtime default strategy produces no signal -/

/-- Helper: with the realtime default flags every rule gate is closed, so no
results are collected, whatever the rule implementations do. -/
lemma run_rules_realtime (rules : RuleFns) (df : Frame) (idx : ℕ) :
    run_rules realtime_default_rules rules df idx = [] := rfl

/-- C10.  The default setup of `RealtimeSignalGenerator` sets all six rule
flags read by `evaluate` to False and only the unread key
`momentum_equilibrium` to True, so `evaluate` never returns a signal on any
candle input (it returns none, or propagates the missing-column
`ValueError` first). -/
theorem c10_realtime_default_no_signal :
    (dict_get realtime_default_rules "rule_1_618_retracement" = false ∧
     dict_get realtime_default_rules "rule_2_786_deep_discount" = false ∧
     dict_get realtime_default_rules "rule_3_236_shallow_pullback" = false ∧
     dict_get realtime_default_rules "rule_4_consolidation_break" = false ∧
     dict_get realtime_default_rules "rule_5_ath_breakout_retest" = false ∧
     dict_get realtime_default_rules "rule_6_50_momentum" = false ∧
     dict_get realtime_default_rules "momentum_equilibrium" = true) ∧
    ∀ (rules : RuleFns) (df : Frame) (idx : ℕ),
      evaluate default_strategy_config realtime_default_rules rules df idx = .ok none ∨
      evaluate default_strategy_config realtime_default_rules rules df idx =
        .error (.valueError "Missing required columns") := by
  refine ⟨by decide, ?_⟩
  intro rules df idx
  by_cases hidx : idx < max default_strategy_config.trend_lookback 60
  · left; simp [evaluate, hidx]
  · by_cases hcols : has_required_columns df = false
    · right
      rw [evaluate, if_neg hidx]
      simp [hcols]
    · left
      rw [evaluate, if_neg hidx, if_neg hcols, run_rules_realtime]

end GoldTraders
